import Mathlib

/-
Verification of the projection engine in `asset_simulation.py` (function
`simulate_assets`, lines 8-65).

The Python engine works on IEEE floats; we embed it over the real numbers,
with `(1 + annual_return) ** (1/12)` modelled by `Real.rpow`.  Two behaviours
of the concrete program fall outside plain real arithmetic and are modelled
by an `Option` result:

* If `1 + annual_return < 0` and at least one year is simulated, the Python
  expression `(1 + annual_return) ** (1/12)` evaluates to a complex number
  (Python 3 returns a complex result for a negative base and non-integral
  exponent).  The complex value propagates through the monthly arithmetic and
  `max(0, current_asset)` at line 50 then raises `TypeError` ('>' is not
  supported between complex and int).  Result: no series is returned.

* If `start_age >= 101`, the list `years = range(start_year, end_year + 1)`
  is empty while `assets` and `monthly_withdrawals` still hold their seed
  element, so the `pd.DataFrame` constructor at line 58 raises `ValueError`
  (all arrays must be of the same length).  Result: no series is returned.

In every other case the loop is ordinary real arithmetic and the engine
returns the series; `simulate_assets` below returns `some` of it exactly
under those conditions.
-/

namespace AssetSimulation

/-- The eight scalar inputs of `simulate_assets` (source lines 8-17). -/
structure SimulationParameters where
  start_year : ℤ
  start_age : ℤ
  initial_assets : ℝ
  annual_return : ℝ
  monthly_investment : ℝ
  end_investment_year : ℤ
  start_withdrawal_year : ℤ
  withdrawal_rate : ℝ

/-- One row of the resulting table (source lines 58-63): calendar year, age,
year-end balance and the per-month withdrawal used through that year. -/
structure AnnualRecord where
  year : ℤ
  age : ℤ
  balance : ℝ
  monthly_withdrawal : ℝ

/-- Number of rows: `len(range(start_year, start_year + (100 - start_age) + 1))`
(source lines 19-21), i.e. `max 0 (101 - start_age)`. -/
def num_records (p : SimulationParameters) : ℕ :=
  (101 - p.start_age).toNat

/-- `monthly_return = (1 + annual_return) ** (1/12) - 1` (source line 39). -/
noncomputable def monthly_return (annual_return : ℝ) : ℝ :=
  (1 + annual_return) ^ ((1 : ℝ) / 12) - 1

/-- One iteration of the month loop (source lines 33-47): add the
contribution while `year <= end_investment_year`, multiply by
`1 + monthly_return`, then subtract `prev_asset * withdrawal_rate / 12`
once `year >= start_withdrawal_year`.  The withdrawal is computed from
`prev_asset`, the balance recorded for the previous year, not from the
intra-year `current` value. -/
noncomputable def month_step (p : SimulationParameters) (year : ℤ)
    (prev_asset current : ℝ) : ℝ :=
  let current := if year ≤ p.end_investment_year then current + p.monthly_investment
    else current
  let current := current * (1 + monthly_return p.annual_return)
  if p.start_withdrawal_year ≤ year then
    current - prev_asset * p.withdrawal_rate / 12
  else current

/-- The twelve monthly iterations for one year (`for month in range(12)`,
source line 33), starting from `current = prev_asset` (source line 30). -/
noncomputable def year_step (p : SimulationParameters) (year : ℤ)
    (prev_asset : ℝ) : ℝ :=
  (month_step p year prev_asset)^[12] prev_asset

/-- The `assets` list (source lines 24, 28-50): seeded with
`initial_assets`, then each simulated year appends
`max(0, current_asset)`. -/
noncomputable def assets (p : SimulationParameters) : ℕ → ℝ
  | 0 => p.initial_assets
  | n + 1 => max 0 (year_step p (p.start_year + (n + 1 : ℤ)) (assets p n))

/-- The `monthly_withdrawals` list (source lines 25, 52-55): seeded with 0,
then each simulated year appends `prev_asset * withdrawal_rate / 12` when
`year >= start_withdrawal_year` and 0 otherwise. -/
noncomputable def monthly_withdrawals (p : SimulationParameters) : ℕ → ℝ
  | 0 => 0
  | n + 1 =>
    if p.start_withdrawal_year ≤ p.start_year + (n + 1 : ℤ) then
      assets p n * p.withdrawal_rate / 12
    else 0

/-- Row `n` of the resulting table (source lines 58-63). -/
noncomputable def record (p : SimulationParameters) (n : ℕ) : AnnualRecord :=
  { year := p.start_year + n
    age := p.start_age + n
    balance := assets p n
    monthly_withdrawal := monthly_withdrawals p n }

/-- The full table, one row per element of `years` (source lines 20, 58-63). -/
noncomputable def series (p : SimulationParameters) : List AnnualRecord :=
  (List.range (num_records p)).map (record p)

open Classical in
/-- The engine.  `none` models the two raising behaviours described in the
header comment (empty `years` list, and the complex value reaching
`max(0, current_asset)`); otherwise the computed series is returned. -/
noncomputable def simulate_assets (p : SimulationParameters) :
    Option (List AnnualRecord) :=
  if num_records p = 0 then none
  else if 1 + p.annual_return < 0 ∧ 2 ≤ num_records p then none
  else some (series p)

/-- Modelled from the spec (section 4.1, step "apply twelve monthly steps in
fixed order"): one monthly step written exactly as the spec phrases it, as
growth applied to the contribution-augmented balance minus the (possibly
zero) fixed withdrawal.  Used to compare the specified month order with the
implemented one. -/
noncomputable def spec_month_step (p : SimulationParameters) (year : ℤ)
    (prior_balance current : ℝ) : ℝ :=
  (if year ≤ p.end_investment_year then current + p.monthly_investment else current)
      * (1 + monthly_return p.annual_return)
    - (if p.start_withdrawal_year ≤ year then
        prior_balance * p.withdrawal_rate / 12
      else 0)

/-- Scaling of the two money inputs by a factor `l`. -/
def scale_money (l : ℝ) (p : SimulationParameters) : SimulationParameters :=
  { p with
    initial_assets := l * p.initial_assets
    monthly_investment := l * p.monthly_investment }

/-- Scaling of the money outputs of one row by a factor `l`. -/
def scale_record (l : ℝ) (rec : AnnualRecord) : AnnualRecord :=
  { rec with
    balance := l * rec.balance
    monthly_withdrawal := l * rec.monthly_withdrawal }

/-- Concrete parameter set with in-range age but annual return below -1. -/
noncomputable def pC1 : SimulationParameters :=
  ⟨2025, 50, 1000, -2, 100, 2060, 2055, 1 / 25⟩

/-- Concrete well-behaved parameter set, ages 99 and 100. -/
noncomputable def pW1 : SimulationParameters :=
  ⟨2025, 99, 500, 0, 100, 2100, 2026, 1 / 10⟩

/-- Concrete parameter set with an active withdrawal in the second year. -/
noncomputable def pW2 : SimulationParameters :=
  ⟨2025, 99, 600, 0, 50, 2100, 2026, 1 / 25⟩

/-- Concrete parameter set with contribution and withdrawal both active. -/
noncomputable def pW3 : SimulationParameters :=
  ⟨2025, 99, 700, 0, 50, 2100, 2026, 1 / 25⟩

/-- Concrete parameter set with nonnegative initial assets. -/
noncomputable def pW4 : SimulationParameters :=
  ⟨2025, 99, 800, 0, 50, 2100, 2026, 1 / 25⟩

/-- Concrete parameter set with annual return -2, taken from the claimed
unrestricted input domain. -/
noncomputable def pC5 : SimulationParameters :=
  ⟨2025, 30, 900, -2, 50, 2060, 2000, 1 / 25⟩

/-- Concrete inconsistent-but-harmless parameter set: contributions end and
withdrawals begin before the simulation starts, and the return is negative. -/
noncomputable def pW5 : SimulationParameters :=
  ⟨2025, 30, 900, -(1 / 2), 50, 1990, 2000, 1 / 25⟩

/-- Concrete parameter set with annual return -2 and a flow-free year 2030. -/
noncomputable def pC6 : SimulationParameters :=
  ⟨2025, 30, 1, -2, 0, 2000, 3000, 0⟩

/-- Concrete parameter set with a flow-free year 2030. -/
noncomputable def pW6 : SimulationParameters :=
  ⟨2025, 30, 1, 1 / 20, 0, 2000, 3000, 0⟩

/-- Concrete parameter set with zero contributions and zero withdrawal rate. -/
noncomputable def pW7 : SimulationParameters :=
  ⟨2025, 99, 1000, 1 / 20, 0, 2100, 2026, 0⟩

/-- Concrete parameter set whose contribution window closes before the start
and whose withdrawals begin after the terminal year. -/
noncomputable def pW8 : SimulationParameters :=
  ⟨2025, 60, 1000, 1 / 25, 100, 2000, 4000, 1 / 25⟩

/-- Concrete parameter set with a total-loss return of -1. -/
noncomputable def pW9 : SimulationParameters :=
  ⟨2025, 60, 500, -1, 10, 2100, 2020, 1 / 25⟩

/-- Concrete parameter set used for the scaling property. -/
noncomputable def pW10 : SimulationParameters :=
  ⟨2025, 60, 500, 1 / 20, 10, 2060, 2070, 1 / 25⟩

/-- Iterating `multiply by a` is multiplication by a power of `a`. -/
lemma iterate_mul_const (a : ℝ) :
    ∀ (k : ℕ) (c : ℝ), (fun x : ℝ => x * a)^[k] c = c * a ^ k
  | 0, c => by simp
  | k + 1, c => by
    rw [Function.iterate_succ_apply, iterate_mul_const a k]
    ring

/-- For `annual_return ≥ -1` the twelfth-root conversion of line 39 is exact:
twelve monthly factors reproduce `1 + annual_return`. -/
lemma one_add_monthly_return_pow {r : ℝ} (h : -1 ≤ r) :
    (1 + monthly_return r) ^ (12 : ℕ) = 1 + r := by
  have h0 : (0 : ℝ) ≤ 1 + r := by linarith
  have h1 : 1 + monthly_return r = (1 + r) ^ ((1 : ℝ) / 12) := by
    unfold monthly_return; ring
  rw [h1, ← Real.rpow_natCast ((1 + r) ^ ((1 : ℝ) / 12)) 12, ← Real.rpow_mul h0]
  norm_num

/-- With zero contribution and zero withdrawal rate, a month is pure growth. -/
lemma month_step_no_flow_params {p : SimulationParameters}
    (hmi : p.monthly_investment = 0) (hwr : p.withdrawal_rate = 0)
    (year : ℤ) (prev c : ℝ) :
    month_step p year prev c = c * (1 + monthly_return p.annual_return) := by
  simp [month_step, hmi, hwr]

/-- In a year outside both the contribution and the withdrawal windows, a
month is pure growth. -/
lemma month_step_no_flow_year {p : SimulationParameters} {year : ℤ}
    (hinv : p.end_investment_year < year) (hwd : year < p.start_withdrawal_year)
    (prev c : ℝ) :
    month_step p year prev c = c * (1 + monthly_return p.annual_return) := by
  simp only [month_step]
  rw [if_neg (by omega), if_neg (by omega)]

/-- If every month multiplies by `a`, the year multiplies by `a ^ 12`. -/
lemma year_step_growth {p : SimulationParameters} {year : ℤ} {prev a : ℝ}
    (h : ∀ c : ℝ, month_step p year prev c = c * a) :
    year_step p year prev = prev * a ^ (12 : ℕ) := by
  have hf : month_step p year prev = fun c : ℝ => c * a := funext h
  unfold year_step
  rw [hf, iterate_mul_const]

/-- Every entry of the `assets` list is nonnegative once the seed is. -/
lemma assets_nonneg {p : SimulationParameters} (h0 : 0 ≤ p.initial_assets) :
    ∀ n, 0 ≤ assets p n := by
  intro n
  cases n with
  | zero => exact h0
  | succ k =>
    simp only [assets]
    exact le_max_left 0 _

/-- The series has one row per element of `years`. -/
lemma series_length (p : SimulationParameters) :
    (series p).length = num_records p := by
  simp [series]

/-- Row `n` of the series is `record p n`. -/
lemma series_get (p : SimulationParameters) {n : ℕ} (h : n < num_records p) :
    (series p).get? n = some (record p n) := by
  simp only [series, List.get?_eq_getElem?, List.getElem?_map,
    List.getElem?_range h, Option.map_some']

/-- The engine returns its series whenever the row count is positive and the
growth base is not negative (no complex value can arise). -/
lemma simulate_assets_eq_some {p : SimulationParameters} (h1 : 1 ≤ num_records p)
    (h2 : -1 ≤ p.annual_return ∨ num_records p ≤ 1) :
    simulate_assets p = some (series p) := by
  unfold simulate_assets
  rw [if_neg (by omega), if_neg]
  rintro ⟨ha, hb⟩
  rcases h2 with h2 | h2
  · linarith
  · omega

/-- Inversion: a returned series is the computed one, the row count is
positive, and either the growth base was nonnegative or only the seed row
exists. -/
lemma simulate_assets_inv {p : SimulationParameters} {s : List AnnualRecord}
    (hs : simulate_assets p = some s) :
    s = series p ∧ 1 ≤ num_records p ∧
      (-1 ≤ p.annual_return ∨ num_records p ≤ 1) := by
  unfold simulate_assets at hs
  by_cases h1 : num_records p = 0
  · rw [if_pos h1] at hs; cases hs
  · rw [if_neg h1] at hs
    by_cases h2 : 1 + p.annual_return < 0 ∧ 2 ≤ num_records p
    · rw [if_pos h2] at hs; cases hs
    · rw [if_neg h2] at hs
      injection hs with hs
      refine ⟨hs.symm, by omega, ?_⟩
      rcases not_and_or.mp h2 with h | h
      · left; linarith [not_lt.mp h]
      · right; omega

/-- C1 (amended): for every parameter set with `0 ≤ start_age < 100` and
`annual_return ≥ -1`, `simulate_assets` returns a series of exactly
`101 - start_age` records whose years run from `start_year` upward and ages
from `start_age` upward, each advancing by exactly 1 per step, and whose
first record is `(start_year, start_age, initial_assets, 0)`. -/
theorem C1_series_shape (p : SimulationParameters)
    (h0 : 0 ≤ p.start_age) (h1 : p.start_age < 100) (hr : -1 ≤ p.annual_return) :
    simulate_assets p = some (series p) ∧
    ((series p).length : ℤ) = 101 - p.start_age ∧
    (∀ n : ℕ, n < (series p).length → (series p).get? n = some (record p n)) ∧
    (∀ n : ℕ, (record p n).year = p.start_year + n ∧
      (record p n).age = p.start_age + n ∧
      (record p (n + 1)).year = (record p n).year + 1 ∧
      (record p (n + 1)).age = (record p n).age + 1) ∧
    record p 0 = ⟨p.start_year, p.start_age, p.initial_assets, 0⟩ := by
  have hnum : 1 ≤ num_records p := by unfold num_records; omega
  refine ⟨simulate_assets_eq_some hnum (Or.inl hr), ?_, ?_, ?_, ?_⟩
  · rw [series_length]; unfold num_records; omega
  · intro n hn
    rw [series_length] at hn
    exact series_get p hn
  · intro n
    refine ⟨rfl, rfl, ?_, ?_⟩ <;>
      · show _ + ((n : ℤ) + 1) = _ + (n : ℤ) + 1
        ring
  · simp [record, assets, monthly_withdrawals]

/-- C1 counterexample: `pC1` has `start_age = 50` inside the claimed range,
yet the engine returns no series at all: `annual_return = -2` makes the
growth factor of line 39 complex and line 50 raises `TypeError`. -/
theorem C1_counterexample :
    (0 ≤ pC1.start_age ∧ pC1.start_age < 100) ∧ simulate_assets pC1 = none := by
  refine ⟨by decide, ?_⟩
  have hc : 1 + pC1.annual_return < 0 ∧ 2 ≤ num_records pC1 :=
    ⟨by norm_num [pC1], by decide⟩
  unfold simulate_assets
  rw [if_neg (by decide), if_pos hc]

/-- C1 witness: the amended claim instantiated at `pW1`. -/
theorem C1_witness :
    simulate_assets pW1 = some (series pW1) ∧
    ((series pW1).length : ℤ) = 101 - pW1.start_age ∧
    record pW1 0 = ⟨pW1.start_year, pW1.start_age, pW1.initial_assets, 0⟩ := by
  obtain ⟨a, b, -, -, e⟩ :=
    C1_series_shape pW1 (by decide) (by decide) (by norm_num [pW1])
  exact ⟨a, b, e⟩

/-- C2: for every recorded year after the first, the recorded
`monthly_withdrawal` equals the previous row's balance times
`withdrawal_rate / 12` when the year has reached `start_withdrawal_year` and
0 otherwise, and every one of that year's twelve monthly steps subtracts
exactly that amount — the subtrahend does not depend on the intra-year
balance `current`. -/
theorem C2_fixed_withdrawal (p : SimulationParameters) (s : List AnnualRecord)
    (hs : simulate_assets p = some s) (n : ℕ) (h1 : 1 ≤ n) (hn : n < s.length) :
    s.get? n = some (record p n) ∧
    (record p n).monthly_withdrawal =
      (if p.start_withdrawal_year ≤ p.start_year + (n : ℤ) then
        (record p (n - 1)).balance * p.withdrawal_rate / 12
      else 0) ∧
    ∀ current : ℝ,
      month_step p (p.start_year + (n : ℤ)) ((record p (n - 1)).balance) current =
        (if p.start_year + (n : ℤ) ≤ p.end_investment_year then
          current + p.monthly_investment
        else current) * (1 + monthly_return p.annual_return)
          - (record p n).monthly_withdrawal := by
  obtain ⟨rfl, hpos, -⟩ := simulate_assets_inv hs
  rw [series_length] at hn
  obtain ⟨k, rfl⟩ : ∃ k, n = k + 1 := ⟨n - 1, by omega⟩
  refine ⟨series_get p hn, ?_, ?_⟩
  · simp only [record, monthly_withdrawals, Nat.add_sub_cancel, Nat.cast_add,
      Nat.cast_one]
  · intro current
    simp only [record, monthly_withdrawals, month_step, Nat.add_sub_cancel,
      Nat.cast_add, Nat.cast_one]
    by_cases hw : p.start_withdrawal_year ≤ p.start_year + ((k : ℤ) + 1)
    · rw [if_pos hw, if_pos hw]
    · rw [if_neg hw, if_neg hw, sub_zero]

/-- C2 witness: the claim instantiated at `pW2`, year index 1, month balance 7. -/
theorem C2_witness :
    (series pW2).get? 1 = some (record pW2 1) ∧
    (record pW2 1).monthly_withdrawal =
      (if pW2.start_withdrawal_year ≤ pW2.start_year + ((1 : ℕ) : ℤ) then
        (record pW2 0).balance * pW2.withdrawal_rate / 12
      else 0) ∧
    month_step pW2 (pW2.start_year + ((1 : ℕ) : ℤ)) ((record pW2 0).balance) 7 =
      (if pW2.start_year + ((1 : ℕ) : ℤ) ≤ pW2.end_investment_year then
        7 + pW2.monthly_investment
      else (7 : ℝ)) * (1 + monthly_return pW2.annual_return)
        - (record pW2 1).monthly_withdrawal := by
  obtain ⟨a, b, c⟩ := C2_fixed_withdrawal pW2 (series pW2)
    (simulate_assets_eq_some (by decide) (Or.inl (by norm_num [pW2]))) 1
    (by norm_num) (by rw [series_length]; decide)
  exact ⟨a, b, c 7⟩

/-- The implemented month (add, grow, then conditionally subtract) agrees
with the spec's phrasing of the month (grown augmented balance minus a
possibly-zero fixed withdrawal). -/
lemma month_step_eq_spec (p : SimulationParameters) (year : ℤ) (prev c : ℝ) :
    month_step p year prev c = spec_month_step p year prev c := by
  simp only [month_step, spec_month_step]
  by_cases hw : p.start_withdrawal_year ≤ year
  · rw [if_pos hw, if_pos hw]
  · rw [if_neg hw, if_neg hw, sub_zero]

/-- C3: each simulated year's closing balance is the floor at 0 of twelve
iterations of the fixed-order monthly step — contribution added first (so it
compounds for the rest of the month), growth applied next, and the fixed
withdrawal subtracted from the post-growth balance — started from the prior
year's recorded balance. -/
theorem C3_monthly_order (p : SimulationParameters) (s : List AnnualRecord)
    (hs : simulate_assets p = some s) (n : ℕ) (hn : n + 1 < s.length) :
    s.get? (n + 1) = some (record p (n + 1)) ∧
    (record p (n + 1)).balance =
      max 0 ((spec_month_step p (p.start_year + (n + 1 : ℤ))
        ((record p n).balance))^[12] ((record p n).balance)) := by
  obtain ⟨rfl, -, -⟩ := simulate_assets_inv hs
  rw [series_length] at hn
  refine ⟨series_get p hn, ?_⟩
  have hf : month_step p (p.start_year + (n + 1 : ℤ)) (assets p n)
      = spec_month_step p (p.start_year + (n + 1 : ℤ)) (assets p n) :=
    funext (month_step_eq_spec p _ _)
  simp only [record, assets]
  unfold year_step
  rw [hf]

/-- C3 witness: the claim instantiated at `pW3`, first simulated year. -/
theorem C3_witness :
    (series pW3).get? 1 = some (record pW3 1) ∧
    (record pW3 1).balance =
      max 0 ((spec_month_step pW3 (pW3.start_year + ((0 : ℕ) + 1 : ℤ))
        ((record pW3 0).balance))^[12] ((record pW3 0).balance)) :=
  C3_monthly_order pW3 (series pW3)
    (simulate_assets_eq_some (by decide) (Or.inl (by norm_num [pW3]))) 0
    (by rw [series_length]; decide)

/-- C4: when `initial_assets ≥ 0`, every record of a returned series has a
nonnegative balance, and every year after the first records exactly
`max 0` of the twelve-step year result, so no negative intra-year value
reaches the output. -/
theorem C4_balance_nonneg (p : SimulationParameters) (s : List AnnualRecord)
    (h0 : 0 ≤ p.initial_assets) (hs : simulate_assets p = some s) :
    (∀ rec ∈ s, 0 ≤ rec.balance) ∧
    ∀ n : ℕ, (record p (n + 1)).balance =
      max 0 (year_step p (p.start_year + (n + 1 : ℤ)) ((record p n).balance)) := by
  obtain ⟨rfl, -, -⟩ := simulate_assets_inv hs
  constructor
  · intro rec hrec
    unfold series at hrec
    obtain ⟨n, -, rfl⟩ := List.mem_map.mp hrec
    exact assets_nonneg h0 n
  · intro n
    simp only [record, assets]

/-- C4 witness: the claim's nonnegativity applied to row 1 of `pW4`. -/
theorem C4_witness : 0 ≤ (record pW4 1).balance := by
  refine (C4_balance_nonneg pW4 (series pW4) (by norm_num [pW4])
    (simulate_assets_eq_some (by decide) (Or.inl (by norm_num [pW4])))).1
    (record pW4 1) ?_
  unfold series
  exact List.mem_map.mpr ⟨1, List.mem_range.mpr (by decide), rfl⟩

/-- C5 (amended): the engine is total for every parameter set with
`start_age ≤ 100` and `annual_return ≥ -1` — including inconsistent ones
such as `start_withdrawal_year` before `start_year` or negative rates — and
returns its series without signalling any error. -/
theorem C5_total_on_domain (p : SimulationParameters)
    (h1 : p.start_age ≤ 100) (h2 : -1 ≤ p.annual_return) :
    simulate_assets p = some (series p) :=
  simulate_assets_eq_some (by unfold num_records; omega) (Or.inl h2)

/-- C5 counterexample: at `pC5` (`annual_return = -2`, a numeric input) the
engine does not return a series: the growth factor of line 39 is complex in
Python and `max(0, current_asset)` at line 50 raises `TypeError`. -/
theorem C5_counterexample : simulate_assets pC5 = none := by
  have hc : 1 + pC5.annual_return < 0 ∧ 2 ≤ num_records pC5 :=
    ⟨by norm_num [pC5], by decide⟩
  unfold simulate_assets
  rw [if_neg (by decide), if_pos hc]

/-- C5 witness: totality at the inconsistent parameter set `pW5`, whose
withdrawals begin before the simulation starts and whose return is
negative. -/
theorem C5_witness : simulate_assets pW5 = some (series pW5) :=
  C5_total_on_domain pW5 (by decide) (by norm_num [pW5])

/-- C6 (amended): for `annual_return ≥ -1`, the monthly rate is the
geometric relation `(1 + annual_return) ^ (1/12) - 1` and the conversion is
exact: a year in which no cash flows occur multiplies the balance by exactly
`1 + annual_return`. -/
theorem C6_exact_conversion (p : SimulationParameters) (year : ℤ) (b : ℝ)
    (hr : -1 ≤ p.annual_return) (hinv : p.end_investment_year < year)
    (hwd : year < p.start_withdrawal_year) :
    monthly_return p.annual_return = (1 + p.annual_return) ^ ((1 : ℝ) / 12) - 1 ∧
    year_step p year b = (1 + p.annual_return) * b := by
  refine ⟨rfl, ?_⟩
  rw [year_step_growth (fun c => month_step_no_flow_year hinv hwd b c),
    one_add_monthly_return_pow hr]
  ring

/-- C6 counterexample: at `pC6` (`annual_return = -2`) twelve applications of
the real-valued monthly factor to the balance 1 give a nonnegative number,
not `1 + annual_return = -1`, so the conversion is not exact there (the
Python program itself produces a complex factor and raises before
recording). -/
theorem C6_counterexample :
    pC6.end_investment_year < 2030 ∧ (2030 : ℤ) < pC6.start_withdrawal_year ∧
    year_step pC6 2030 1 ≠ (1 + pC6.annual_return) * 1 := by
  refine ⟨by decide, by decide, ?_⟩
  rw [year_step_growth (fun c => month_step_no_flow_year (by decide) (by decide) 1 c),
    one_mul]
  intro heq
  have h12 : (0 : ℝ) ≤ (1 + monthly_return pC6.annual_return) ^ (12 : ℕ) := by
    rw [show (12 : ℕ) = 2 * 6 from rfl, pow_mul]
    exact pow_nonneg (sq_nonneg _) 6
  rw [heq] at h12
  have hlt : (1 + pC6.annual_return) * 1 < 0 := by norm_num [pC6]
  linarith

/-- C6 witness: the amended claim instantiated at `pW6`, year 2030,
balance 5. -/
theorem C6_witness :
    monthly_return pW6.annual_return = (1 + pW6.annual_return) ^ ((1 : ℝ) / 12) - 1 ∧
    year_step pW6 2030 5 = (1 + pW6.annual_return) * 5 :=
  C6_exact_conversion pW6 2030 5 (by norm_num [pW6]) (by decide) (by decide)

/-- C7: with zero contribution and zero withdrawal rate and a nonnegative
starting balance `B` (the data model's domain for `initial_assets`), every
record of a returned series carries balance `B * (1 + annual_return) ^ n`,
`n` years after the start — pure compounding, exact over the reals. -/
theorem C7_pure_compounding (p : SimulationParameters) (s : List AnnualRecord)
    (h0 : 0 ≤ p.initial_assets) (hmi : p.monthly_investment = 0)
    (hwr : p.withdrawal_rate = 0) (hs : simulate_assets p = some s)
    (n : ℕ) (hn : n < s.length) :
    s.get? n = some (record p n) ∧
    (record p n).balance = p.initial_assets * (1 + p.annual_return) ^ n := by
  obtain ⟨rfl, hpos, hdom⟩ := simulate_assets_inv hs
  rw [series_length] at hn
  refine ⟨series_get p hn, ?_⟩
  rcases hdom with hr | hone
  · have key : ∀ m : ℕ, assets p m = p.initial_assets * (1 + p.annual_return) ^ m := by
      intro m
      induction m with
      | zero => simp [assets]
      | succ k ih =>
        have hk : (0 : ℝ) ≤ 1 + p.annual_return := by linarith
        have hb : 0 ≤ p.initial_assets * (1 + p.annual_return) ^ k :=
          mul_nonneg h0 (pow_nonneg hk k)
        simp only [assets]
        rw [year_step_growth
            (fun c => month_step_no_flow_params hmi hwr _ (assets p k) c),
          one_add_monthly_return_pow hr, ih,
          max_eq_right (mul_nonneg hb hk), pow_succ]
        ring
    exact key n
  · have hn0 : n = 0 := by omega
    subst hn0
    simp [assets, record]

/-- C7 witness: the claim instantiated at `pW7`, row 1. -/
theorem C7_witness :
    (series pW7).get? 1 = some (record pW7 1) ∧
    (record pW7 1).balance = pW7.initial_assets * (1 + pW7.annual_return) ^ (1 : ℕ) :=
  C7_pure_compounding pW7 (series pW7) (by norm_num [pW7]) rfl rfl
    (simulate_assets_eq_some (by decide) (Or.inl (by norm_num [pW7]))) 1
    (by rw [series_length]; decide)

/-- C8: when contributions end before `start_year` and withdrawals begin
after the terminal year `start_year + (100 - start_age)`, the engine
returns exactly the same result as for the same parameters with
`monthly_investment = 0` and `withdrawal_rate = 0`: no flow ever occurs and
pure compounding remains. -/
theorem C8_no_flow_equiv (p q : SimulationParameters)
    (hq : q = { p with monthly_investment := 0, withdrawal_rate := 0 })
    (hinv : p.end_investment_year < p.start_year)
    (hwd : p.start_year + (100 - p.start_age) < p.start_withdrawal_year) :
    simulate_assets p = simulate_assets q := by
  subst hq
  have hbal : ∀ n : ℕ, n < num_records p →
      assets { p with monthly_investment := 0, withdrawal_rate := 0 } n
        = assets p n := by
    intro n
    induction n with
    | zero => intro _; rfl
    | succ k ih =>
      intro hk1
      have hk : k < num_records p := by omega
      have hk1' : (k : ℤ) + 1 ≤ 100 - p.start_age := by
        unfold num_records at hk1
        omega
      have hy1 : p.end_investment_year < p.start_year + ((k : ℤ) + 1) := by omega
      have hy2 : p.start_year + ((k : ℤ) + 1) < p.start_withdrawal_year := by omega
      simp only [assets]
      rw [ih hk,
        year_step_growth
          (fun c => month_step_no_flow_params rfl rfl _ (assets p k) c),
        year_step_growth (fun c => month_step_no_flow_year hy1 hy2 (assets p k) c)]
  have hmw : ∀ n : ℕ, n < num_records p →
      monthly_withdrawals { p with monthly_investment := 0, withdrawal_rate := 0 } n
        = monthly_withdrawals p n := by
    intro n hn
    cases n with
    | zero => rfl
    | succ k =>
      have hk1' : (k : ℤ) + 1 ≤ 100 - p.start_age := by
        unfold num_records at hn
        omega
      simp only [monthly_withdrawals, mul_zero, zero_div, ite_self]
      rw [if_neg (by omega)]
  have hrec : ∀ n : ℕ, n < num_records p →
      record { p with monthly_investment := 0, withdrawal_rate := 0 } n
        = record p n := by
    intro n hn
    simp only [record]
    rw [hbal n hn, hmw n hn]
  have hser : series { p with monthly_investment := 0, withdrawal_rate := 0 }
      = series p := by
    unfold series
    refine List.map_congr_left ?_
    intro n hn
    exact hrec n (List.mem_range.mp hn)
  have hn' : num_records { p with monthly_investment := 0, withdrawal_rate := 0 }
      = num_records p := rfl
  have ha' : ({ p with monthly_investment := 0, withdrawal_rate := 0 } :
      SimulationParameters).annual_return = p.annual_return := rfl
  unfold simulate_assets
  rw [hser, hn', ha']

/-- C8 witness: the claim instantiated at `pW8`. -/
theorem C8_witness :
    simulate_assets pW8 =
      simulate_assets { pW8 with monthly_investment := 0, withdrawal_rate := 0 } :=
  C8_no_flow_equiv pW8 { pW8 with monthly_investment := 0, withdrawal_rate := 0 }
    rfl (by decide) (by decide)

/-- C9: a total-loss return of -1 makes the monthly rate exactly -1, the
growth step annihilates the balance (contributions added that month
included), and every record after the first carries balance exactly 0 for
every in-domain `initial_assets`, contribution and withdrawal setting. -/
theorem C9_total_loss (p : SimulationParameters) (hr : p.annual_return = -1)
    (h0 : 0 ≤ p.initial_assets) (hw : 0 ≤ p.withdrawal_rate) :
    monthly_return p.annual_return = -1 ∧
    ∀ n : ℕ, 1 ≤ n → (record p n).balance = 0 := by
  have hm : monthly_return p.annual_return = -1 := by
    rw [hr]
    unfold monthly_return
    rw [show (1 : ℝ) + -1 = 0 by norm_num, Real.zero_rpow (by norm_num)]
    norm_num
  refine ⟨hm, ?_⟩
  intro n hn
  obtain ⟨k, rfl⟩ : ∃ k, n = k + 1 := ⟨n - 1, by omega⟩
  show assets p (k + 1) = 0
  simp only [assets]
  have hstep : ∀ c : ℝ,
      month_step p (p.start_year + (k + 1 : ℤ)) (assets p k) c
        = (if p.start_withdrawal_year ≤ p.start_year + (k + 1 : ℤ) then
            -(assets p k * p.withdrawal_rate / 12)
          else 0) := by
    intro c
    simp only [month_step, hm]
    by_cases hwd : p.start_withdrawal_year ≤ p.start_year + ((k : ℤ) + 1)
    · rw [if_pos hwd, if_pos hwd]; ring
    · rw [if_neg hwd, if_neg hwd]; ring
  have hyear : year_step p (p.start_year + (k + 1 : ℤ)) (assets p k)
      = (if p.start_withdrawal_year ≤ p.start_year + (k + 1 : ℤ) then
          -(assets p k * p.withdrawal_rate / 12)
        else 0) := by
    unfold year_step
    rw [show (12 : ℕ) = 11 + 1 from rfl, Function.iterate_succ_apply']
    exact hstep _
  rw [hyear]
  have hle : (if p.start_withdrawal_year ≤ p.start_year + (k + 1 : ℤ) then
      -(assets p k * p.withdrawal_rate / 12)
    else 0) ≤ 0 := by
    by_cases hwd : p.start_withdrawal_year ≤ p.start_year + ((k : ℤ) + 1)
    · rw [if_pos hwd]
      have hx : 0 ≤ assets p k * p.withdrawal_rate / 12 :=
        div_nonneg (mul_nonneg (assets_nonneg h0 k) hw) (by norm_num)
      linarith
    · rw [if_neg hwd]
  exact max_eq_left hle

/-- C9 witness: the claim instantiated at `pW9`, row 1. -/
theorem C9_witness :
    monthly_return pW9.annual_return = -1 ∧ (record pW9 1).balance = 0 := by
  obtain ⟨a, b⟩ := C9_total_loss pW9 rfl (by norm_num [pW9]) (by norm_num [pW9])
  exact ⟨a, b 1 (by norm_num)⟩

/-- Scaling both money inputs scales one monthly step linearly. -/
lemma month_step_scale {p : SimulationParameters} {l : ℝ} (year : ℤ)
    (prev c : ℝ) :
    month_step (scale_money l p) year (l * prev) (l * c)
      = l * month_step p year prev c := by
  simp only [month_step, scale_money]
  split_ifs <;> ring

/-- Scaling both money inputs scales any number of monthly steps linearly. -/
lemma iterate_scale {p : SimulationParameters} {l : ℝ} (year : ℤ) (prev : ℝ) :
    ∀ (k : ℕ) (c : ℝ),
      (month_step (scale_money l p) year (l * prev))^[k] (l * c)
        = l * (month_step p year prev)^[k] c
  | 0, c => rfl
  | k + 1, c => by
    rw [Function.iterate_succ_apply, Function.iterate_succ_apply,
      month_step_scale year prev c]
    exact iterate_scale year prev k _

/-- The floor at zero commutes with scaling by a nonnegative factor. -/
lemma max_zero_scale {l v : ℝ} (hl : 0 ≤ l) : max 0 (l * v) = l * max 0 v := by
  rcases le_total 0 v with h | h
  · rw [max_eq_right h, max_eq_right (mul_nonneg hl h)]
  · rw [max_eq_left (mul_nonpos_iff.mpr (Or.inl ⟨hl, h⟩)), max_eq_left h,
      mul_zero]

/-- Scaling both money inputs scales every year-end balance linearly. -/
lemma assets_scale {p : SimulationParameters} {l : ℝ} (hl : 0 ≤ l) :
    ∀ n : ℕ, assets (scale_money l p) n = l * assets p n := by
  intro n
  induction n with
  | zero => rfl
  | succ k ih =>
    have hy : (scale_money l p).start_year = p.start_year := rfl
    simp only [assets]
    rw [hy, ih]
    unfold year_step
    rw [iterate_scale (p.start_year + (k + 1 : ℤ)) (assets p k) 12 (assets p k),
      max_zero_scale hl]

/-- Scaling both money inputs scales every recorded withdrawal linearly. -/
lemma monthly_withdrawals_scale {p : SimulationParameters} {l : ℝ} (hl : 0 ≤ l) :
    ∀ n : ℕ, monthly_withdrawals (scale_money l p) n
      = l * monthly_withdrawals p n := by
  intro n
  cases n with
  | zero => simp [monthly_withdrawals]
  | succ k =>
    have hy : (scale_money l p).start_year = p.start_year := rfl
    have hy2 : (scale_money l p).start_withdrawal_year
        = p.start_withdrawal_year := rfl
    have hy3 : (scale_money l p).withdrawal_rate = p.withdrawal_rate := rfl
    simp only [monthly_withdrawals]
    rw [hy, hy2, hy3, assets_scale hl k]
    by_cases hwd : p.start_withdrawal_year ≤ p.start_year + ((k : ℤ) + 1)
    · rw [if_pos hwd, if_pos hwd]; ring
    · rw [if_neg hwd, if_neg hwd, mul_zero]

/-- Scaling both money inputs scales a whole record's money fields and keeps
its year and age. -/
lemma record_scale {p : SimulationParameters} {l : ℝ} (hl : 0 ≤ l) (n : ℕ) :
    record (scale_money l p) n = scale_record l (record p n) := by
  have h1 : (scale_money l p).start_year = p.start_year := rfl
  have h2 : (scale_money l p).start_age = p.start_age := rfl
  simp only [record, scale_record]
  rw [h1, h2, assets_scale hl n, monthly_withdrawals_scale hl n]

/-- C10: the engine is positively homogeneous of degree 1 in the money
inputs: scaling `initial_assets` and `monthly_investment` by any `l > 0`
scales every balance and every monthly withdrawal of the result by exactly
`l`, keeps every year and age, and preserves the error behaviour. -/
theorem C10_homogeneity (p : SimulationParameters) (l : ℝ) (hl : 0 < l) :
    simulate_assets (scale_money l p) =
      Option.map (List.map (scale_record l)) (simulate_assets p) := by
  have hl' : 0 ≤ l := le_of_lt hl
  have hn : num_records (scale_money l p) = num_records p := rfl
  have ha : (scale_money l p).annual_return = p.annual_return := rfl
  have hser : series (scale_money l p) = (series p).map (scale_record l) := by
    unfold series
    rw [hn, List.map_map]
    refine List.map_congr_left ?_
    intro n _
    exact record_scale hl' n
  unfold simulate_assets
  rw [hn, ha, hser]
  by_cases h1 : num_records p = 0
  · rw [if_pos h1, if_pos h1]; rfl
  · rw [if_neg h1, if_neg h1]
    by_cases h2 : 1 + p.annual_return < 0 ∧ 2 ≤ num_records p
    · rw [if_pos h2, if_pos h2]; rfl
    · rw [if_neg h2, if_neg h2]; rfl

/-- C10 witness: the claim instantiated at `pW10` with factor 2. -/
theorem C10_witness :
    simulate_assets (scale_money 2 pW10) =
      Option.map (List.map (scale_record 2)) (simulate_assets pW10) :=
  C10_homogeneity pW10 2 (by norm_num)

end AssetSimulation
